import Mathlib

/-!
Verification of the AI-storyteller repository against its natural-language
specification.  The frontend JavaScript (api.js, the chat component) is
embedded directly from the source.  The backend pipeline (routers/chat.py,
ai/validator.py, relationships/updater.py, ai/llm_manager.py,
ai/context_builder.py) is not shipped in the repository; its behaviour is
embedded from the in-repository documentation (docs/RESPONSE_FLOW.md,
backend/app/PIPELINE_STAGES.md) and, where the repository records nothing,
modelled from the specification as marked on each definition.
-/

namespace Storyteller

/-! ## Frontend API client (frontend/src/api.js, apiRequest) -/

/-- Result of parsing a non-ok HTTP error body as JSON: the optional
string field named detail.  In apiRequest, response.json() failing is
represented by the body being absent (the catch produces an empty object,
which has no detail field). -/
structure ErrorBody where
  detail : Option String
deriving Repr, DecidableEq

/-- An HTTP response as seen by apiRequest: the ok flag, status code and
status text, the error body (none when the body is not parsable JSON),
and the payload returned on the success path. -/
structure HttpResponse where
  ok : Bool
  status : Nat
  statusText : String
  errorBody : Option ErrorBody
  data : String
deriving Repr, DecidableEq

/-- The fallback error message built in api.js line 47:
HTTP status colon statusText. -/
def httpFallbackMessage (r : HttpResponse) : String :=
  "HTTP " ++ toString r.status ++ ": " ++ r.statusText

/-- The message of the Error thrown by apiRequest for a non-ok response
(api.js lines 45 to 48): errorData.detail when that JavaScript value is
truthy (a present, non-empty string), otherwise the HTTP fallback.  An
unparsable body yields the empty object, whose missing detail field is
falsy. -/
def apiRequestErrorMessage (r : HttpResponse) : String :=
  let errorData : ErrorBody := r.errorBody.getD { detail := none }
  match errorData.detail with
  | some d => if d = "" then httpFallbackMessage r else d
  | none => httpFallbackMessage r

/-- apiRequest (api.js lines 29 to 58): throw an Error built from the error
body on a non-ok response, return the parsed body on an ok response. -/
def apiRequest (r : HttpResponse) : Except String String :=
  if r.ok then Except.ok r.data else Except.error (apiRequestErrorMessage r)

/-! ## Frontend chat component (frontend/src/components, ChatComponent) -/

/-- One message in the chat display, as produced by addMessage: a css
type, a speaker header, and the content. -/
structure ChatMessage where
  mtype : String
  speaker : String
  content : String
deriving Repr, DecidableEq

/-- The session object held by the chat component; sendMessage reads its
id field. -/
structure SessionInfo where
  id : Nat
deriving Repr, DecidableEq

/-- The state of ChatComponent visible to sendMessage: the loading flag,
the current session (none models a null session, which is falsy), the
messages appended to the chat display, the text of the user-input element,
and the location label. -/
structure ChatState where
  isLoading : Bool
  currentSession : Option SessionInfo
  messages : List ChatMessage
  inputValue : String
  currentLocation : String
deriving Repr, DecidableEq

/-- A request issued to the backend through the api client sendMessage
function: the session id and the message text. -/
structure ChatRequest where
  sessionId : Nat
  message : String
deriving Repr, DecidableEq

/-- The outcome of the awaited api call inside sendMessage: either the
ChatResponse fields the component reads, or a thrown error. -/
inductive ApiOutcome where
  | success (message : String) (currentLocation : Option String)
  | failure (errMsg : String)
deriving Repr, DecidableEq

/-- ChatComponent.sendMessage: returns without any effect when loading,
when no session is active, or when the trimmed input is empty; otherwise
clears the input, appends the user message, issues the api request, and
appends the narrator response (or a system error message on failure).
The state after the finally block has isLoading false.  The second
component collects the api requests issued during the call. -/
def sendMessage (st : ChatState) (api : ApiOutcome) : ChatState × List ChatRequest :=
  if st.isLoading then (st, [])
  else
    match st.currentSession with
    | none => (st, [])
    | some sess =>
      let message := st.inputValue.trim
      if message = "" then (st, [])
      else
        let afterUser : ChatState :=
          { st with
            inputValue := ""
            messages := st.messages ++ [{ mtype := "user", speaker := "You", content := message }] }
        match api with
        | ApiOutcome.success respMsg respLoc =>
          ({ afterUser with
             messages := afterUser.messages ++
               [{ mtype := "narrator", speaker := "Narrator", content := respMsg }]
             currentLocation :=
               match respLoc with
               | some loc => "Location: " ++ loc
               | none => afterUser.currentLocation
             isLoading := false },
           [{ sessionId := sess.id, message := message }])
        | ApiOutcome.failure e =>
          ({ afterUser with
             messages := afterUser.messages ++
               [{ mtype := "narrator", speaker := "System",
                  content := "Error: " ++ e ++ ". Please check the logs." }]
             isLoading := false },
           [{ sessionId := sess.id, message := message }])

/-! ## Text helpers shared by the backend embedding -/

/-- Whether the first character list is an initial segment of the second. -/
def charsHasPrefixOf : List Char → List Char → Bool
  | [], _ => true
  | _ :: _, [] => false
  | p :: ps, c :: cs => p == c && charsHasPrefixOf ps cs

/-- Whether the pattern occurs as a contiguous segment of the haystack. -/
def charsContains (pat : List Char) : List Char → Bool
  | [] => charsHasPrefixOf pat []
  | c :: cs => charsHasPrefixOf pat (c :: cs) || charsContains pat cs

/-- Substring test on strings, used to model the text-level checks of the
pipeline. -/
def strContains (s pat : String) : Bool :=
  charsContains pat.data s.data

/-! ## Character decisions (app/ai/llm_manager.py, analyze_character_decision)

The decision structure is the JSON object documented in
docs/RESPONSE_FLOW.md section 4 and app/PIPELINE_STAGES.md. -/

/-- A structured character decision: the JSON fields the decision prompt
requires from the model. -/
structure Decision where
  characterName : String
  action : String
  dialogue : String
  emotion : String
  refuses : Bool
  reason : String
deriving Repr, DecidableEq

/-- The deterministic safe default the specification prescribes for an
unparsable model response: no refusal, empty dialogue, emotion unchanged
from the given baseline. -/
def safeDefaultDecision (characterName baselineEmotion : String) : Decision :=
  { characterName := characterName
    action := ""
    dialogue := ""
    emotion := baselineEmotion
    refuses := false
    reason := "" }

/-- A raw model response for a character decision: the raw text, and the
result of json.loads plus field extraction (none models a
JSONDecodeError on malformed output). -/
structure RawResponse where
  text : String
  parsed : Option Decision
deriving Repr, DecidableEq

/-- Modelled from the spec: the repository ships no llm_manager.py under
src, but the analysis reports (unnamed parts 001 and 004) quote its
parsing code and describe the fallback at lines 422 to 452 as simple
keyword detection on the raw response text.  The keyword scan is modelled
as detecting a refusal keyword; its essential property is that the
resulting decision is a function of the raw text, not a fixed default. -/
def parseDecisionText (characterName text : String) : Decision :=
  { characterName := characterName
    action := ""
    dialogue := ""
    emotion := "neutral"
    refuses := strContains text "refus"
    reason := "keyword fallback" }

/-- analyze_character_decision response handling (quoted in the analysis
report, unnamed part 004 lines 176 to 182): try json.loads, and on
JSONDecodeError fall back to the keyword parser on the same raw text.
There is no second model call and no fixed safe default. -/
def analyzeCharacterDecision (characterName : String) (r : RawResponse) : Decision :=
  match r.parsed with
  | some d => d
  | none => parseDecisionText characterName r.text

/-! ## Turn pipeline (app/routers/chat.py per docs/RESPONSE_FLOW.md)

docs/RESPONSE_FLOW.md section 6 documents the shipped validation
behaviour: issues are logged as warnings and the content is still
returned; regeneration is listed as a future enhancement.  The analysis
reports in the repository confirm that no blocking validation module
exists. -/

/-- Issue severity, from the severity table of app/PIPELINE_STAGES.md
stage 7. -/
inductive Severity where
  | critical
  | high
  | medium
  | low
deriving Repr, DecidableEq

/-- A validation issue produced for a Turn. -/
structure ValidationIssue where
  severity : Severity
  description : String
deriving Repr, DecidableEq

/-- A character constraint row: the name and the would-never-do set
(characters table, would_never_do field). -/
structure CharacterRow where
  name : String
  wouldNeverDo : List String
deriving Repr, DecidableEq

/-- Constraint check of PIPELINE_STAGES.md stage 7: a decision whose
action is in the deciding characters would-never-do set is a critical
issue. -/
def decisionViolations (chars : List CharacterRow) (decisions : List Decision) :
    List ValidationIssue :=
  decisions.filterMap fun d =>
    match chars.find? (fun c => c.name == d.characterName) with
    | some c =>
      if c.wouldNeverDo.contains d.action then
        some { severity := Severity.critical
               description := "would_never_do violated by " ++ d.characterName }
      else none
    | none => none

/-- Structural check of PIPELINE_STAGES.md stage 7 and RESPONSE_FLOW.md
section 6: narrative text that puts a line in the user characters mouth
(a line headed by the user characters name) is a critical issue. -/
def userControlViolations (userName narrative : String) : List ValidationIssue :=
  if strContains narrative (userName ++ ":") then
    [{ severity := Severity.critical
       description := "user character controlled" }]
  else []

/-- The validation issues computed for a generated Turn. -/
def validateTurn (chars : List CharacterRow) (userName : String)
    (decisions : List Decision) (narrative : String) : List ValidationIssue :=
  decisionViolations chars decisions ++ userControlViolations userName narrative

/-- The outcome of a Turn as the chat endpoint ships it: the text
delivered to the user and the validation issues that were merely
logged. -/
structure TurnOutcome where
  delivered : String
  warnings : List ValidationIssue
deriving Repr, DecidableEq

/-- The shipped pipeline behaviour documented in docs/RESPONSE_FLOW.md
section 6: validation issues are logged as warnings and the generated
content is still returned, unchanged, whatever the issues are.  There is
no NEEDS_REGEN or REJECTED state and no fallback narration. -/
def processTurn (chars : List CharacterRow) (userName : String)
    (decisions : List Decision) (narrative : String) : TurnOutcome :=
  { delivered := narrative
    warnings := validateTurn chars userName decisions narrative }

/-! ## State updater (app/relationships/updater.py)

Modelled from the spec: updater.py is not shipped under src.  Its
behaviour is specified in section 4.5 of the specification and matches
docs/RESPONSE_FLOW.md section 7.2 and AI_PROMPT_CONSTRUCTION.md: trust
and affection deltas are clamped to plus or minus 0.3 per turn,
familiarity deltas to the range 0 to 0.2 (never negative), and the
running values are clamped to the unit interval. -/

/-- Clamp a rational to the unit interval. -/
def clamp01 (x : ℚ) : ℚ := max 0 (min 1 x)

/-- Clamp a rational to the symmetric interval of radius c. -/
def clampSym (c x : ℚ) : ℚ := max (-c) (min c x)

/-- Clamp a rational to the interval from 0 to c. -/
def clampNonneg (c x : ℚ) : ℚ := max 0 (min c x)

/-- The configured per-turn maximum magnitude for trust and affection
deltas (docs/RESPONSE_FLOW.md section 7.2). -/
def maxRelDelta : ℚ := 3 / 10

/-- The per-turn maximum familiarity increase
(docs/RESPONSE_FLOW.md section 7.2). -/
def maxFamDelta : ℚ := 2 / 10

/-- A relationship row: trust, affection and familiarity scalars. -/
structure RelationshipRow where
  trust : ℚ
  affection : ℚ
  familiarity : ℚ
deriving DecidableEq

/-- The raw deltas the state updater derives from a Turn. -/
structure RelationshipDeltas where
  dTrust : ℚ
  dAffection : ℚ
  dFamiliarity : ℚ
deriving DecidableEq

/-- Modelled from the spec: the per-turn clamping of the raw deltas. -/
def clampDeltas (d : RelationshipDeltas) : RelationshipDeltas :=
  { dTrust := clampSym maxRelDelta d.dTrust
    dAffection := clampSym maxRelDelta d.dAffection
    dFamiliarity := clampNonneg maxFamDelta d.dFamiliarity }

/-- Modelled from the spec: one application of the state updater to a
relationship row, clamping each delta per turn and the running value to
the unit interval. -/
def updateRelationship (r : RelationshipRow) (d : RelationshipDeltas) : RelationshipRow :=
  { trust := clamp01 (r.trust + (clampDeltas d).dTrust)
    affection := clamp01 (r.affection + (clampDeltas d).dAffection)
    familiarity := clamp01 (r.familiarity + (clampDeltas d).dFamiliarity) }

/-- A relationship row is in bounds when each scalar lies in the unit
interval. -/
def RowInBounds (r : RelationshipRow) : Prop :=
  0 ≤ r.trust ∧ r.trust ≤ 1 ∧
  0 ≤ r.affection ∧ r.affection ≤ 1 ∧
  0 ≤ r.familiarity ∧ r.familiarity ≤ 1

instance (r : RelationshipRow) : Decidable (RowInBounds r) := by
  unfold RowInBounds; infer_instance

/-! ## Pipeline orchestrator regeneration loop

Modelled from the spec: the repository documents validation and
regeneration (PIPELINE_STAGES.md stage 7) but ships no loop; the
specification, sections 4.4 and 4.6, prescribes a bounded regeneration
loop with a fixed retry ceiling, ending in a valid, accepted-with-warning
or rejected Turn, with a constraint-safe fallback narration on
rejection. -/

/-- Final status of a Turn after the validation loop. -/
inductive TurnStatus where
  | valid
  | acceptedWithWarning
  | rejected
deriving Repr, DecidableEq

/-- Verdict of one validation pass, by the highest severity found (clean
when no issue was found). -/
inductive Verdict where
  | clean
  | lowSeverity
  | mediumSeverity
  | highSeverity
  | criticalSeverity
deriving Repr, DecidableEq

/-- Whether a verdict triggers regeneration (critical and high do). -/
def Verdict.regen : Verdict → Bool
  | Verdict.criticalSeverity => true
  | Verdict.highSeverity => true
  | _ => false

/-- Modelled from the spec: the fixed regeneration retry ceiling
(for example 2 attempts). -/
def retryCeiling : Nat := 2

/-- Modelled from the spec: the generic constraint-safe fallback
narration returned when the retry ceiling is exhausted. -/
def fallbackNarration : String :=
  "The moment passes quietly; nothing out of the ordinary happens."

/-- Modelled from the spec: the bounded validation and regeneration loop.
The generator is indexed by the attempt number; gensLeft bounds the
number of generation attempts still allowed.  Returns the delivered
text, the final status, and the number of generation attempts
performed. -/
def regenLoop (gen : Nat → String) (validate : String → Verdict) :
    Nat → Nat → String × TurnStatus × Nat
  | 0, _ => (fallbackNarration, TurnStatus.rejected, 0)
  | gensLeft + 1, attempt =>
    let text := gen attempt
    match validate text with
    | Verdict.clean => (text, TurnStatus.valid, 1)
    | Verdict.lowSeverity => (text, TurnStatus.valid, 1)
    | Verdict.mediumSeverity => (text, TurnStatus.acceptedWithWarning, 1)
    | _ =>
      let rest := regenLoop gen validate gensLeft (attempt + 1)
      (rest.1, rest.2.1, rest.2.2 + 1)

/-- Modelled from the spec: the validated Turn pipeline, allowing the
initial generation plus at most retryCeiling regenerations. -/
def processTurnValidated (gen : Nat → String) (validate : String → Verdict) :
    String × TurnStatus × Nat :=
  regenLoop gen validate (retryCeiling + 1) 0

/-! ## Context assembler (app/ai/context_builder.py)

Modelled from the spec: context_builder.py is not shipped under src.  Its
inputs and ranking are documented in docs/RESPONSE_FLOW.md section 2: it
assembles story information, scene state, present characters, the last N
conversation messages, relationships, active story arcs, and the top
10 memory flags with importance at least 7, with no source of
randomness. -/

/-- A memory flag row with its importance score. -/
structure MemoryFlag where
  importance : Nat
  content : String
deriving Repr, DecidableEq

/-- A conversation history entry. -/
structure HistoryEntry where
  speaker : String
  message : String
deriving Repr, DecidableEq

/-- The inputs the context builder reads: story, scene, roster,
history, relationship summaries, arcs, memory flags, and the configured
history limit. -/
structure ContextInputs where
  storyTitle : String
  storyDescription : String
  sceneDescription : String
  presentCharacters : List String
  history : List HistoryEntry
  relationshipSummaries : List String
  activeArcs : List String
  memoryFlags : List MemoryFlag
  maxContextMessages : Nat
deriving Repr, DecidableEq

/-- Insert a flag into a list sorted by decreasing importance. -/
def insertByImportance (f : MemoryFlag) : List MemoryFlag → List MemoryFlag
  | [] => [f]
  | g :: gs =>
    if g.importance < f.importance then f :: g :: gs
    else g :: insertByImportance f gs

/-- Deterministic ranking of memory flags: keep importance at least 7,
sort by decreasing importance (stable), take the top 10. -/
def rankMemoryFlags (flags : List MemoryFlag) : List MemoryFlag :=
  ((flags.filter fun f => 7 ≤ f.importance).foldr insertByImportance []).take 10

/-- Modelled from the spec: build_full_context assembles the context
bundle as a pure function of its inputs: sections for story, scene,
characters, the last maxContextMessages history entries, relationships,
arcs, and the ranked memory flags. -/
def buildFullContext (i : ContextInputs) : String :=
  let historyPart :=
    (i.history.drop (i.history.length - i.maxContextMessages)).foldl
      (fun acc h => acc ++ h.speaker ++ ": " ++ h.message ++ "\n") ""
  let charsPart := i.presentCharacters.foldl (fun acc c => acc ++ c ++ "\n") ""
  let relPart := i.relationshipSummaries.foldl (fun acc s => acc ++ s ++ "\n") ""
  let arcsPart := i.activeArcs.foldl (fun acc a => acc ++ a ++ "\n") ""
  let memPart :=
    (rankMemoryFlags i.memoryFlags).foldl (fun acc m => acc ++ m.content ++ "\n") ""
  "STORY INFORMATION:\n" ++ i.storyTitle ++ "\n" ++ i.storyDescription ++
  "\nCURRENT SCENE:\n" ++ i.sceneDescription ++
  "\nCHARACTERS PRESENT:\n" ++ charsPart ++
  "\nCONVERSATION HISTORY:\n" ++ historyPart ++
  "\nRELATIONSHIP STATUS:\n" ++ relPart ++
  "\nACTIVE STORY ARCS:\n" ++ arcsPart ++
  "\nIMPORTANT MEMORY FLAGS:\n" ++ memPart

/-! ## Concrete instances used in the theorems below -/

/-- A character row with a would-never-do constraint. -/
def elenaRow : CharacterRow :=
  { name := "Elena", wouldNeverDo := ["betray a friend"] }

/-- A decision whose action matches the would-never-do entry. -/
def elenaDecision : Decision :=
  { characterName := "Elena"
    action := "betray a friend"
    dialogue := "It is done."
    emotion := "cold"
    refuses := false
    reason := "pressure" }

/-- A generated narrative containing the forbidden action. -/
def c1Narrative : String :=
  "Elena chooses to betray a friend without hesitation."

/-- A generated narrative that puts a line in the user characters
mouth. -/
def c3Narrative : String :=
  "Miriam: I forgive you. She steps closer."

/-- A malformed model response whose raw text holds a refusal keyword. -/
def malformedRefusal : RawResponse :=
  { text := "She refuses to betray her family.", parsed := none }

/-- A malformed model response with no refusal keyword. -/
def malformedPlain : RawResponse :=
  { text := "not json", parsed := none }

/-- A relationship row inside the unit interval. -/
def c4Row : RelationshipRow :=
  { trust := 1/5, affection := 9/10, familiarity := 3/5 }

/-- Raw deltas, one of which exceeds the per-turn clamp. -/
def c4Deltas : RelationshipDeltas :=
  { dTrust := -1/2, dAffection := 1/4, dFamiliarity := 1/10 }

/-- A relationship row used for the double-application law. -/
def c6Row : RelationshipRow :=
  { trust := 1/2, affection := 1/2, familiarity := 1/2 }

/-- Deltas within the clamp range, so double application doubles them. -/
def c6Deltas : RelationshipDeltas :=
  { dTrust := 1/10, dAffection := 1/10, dFamiliarity := 1/10 }

/-- Concrete context-builder inputs. -/
def c8Inputs : ContextInputs :=
  { storyTitle := "Starling Contract"
    storyDescription := "Two childhood friends, separated by tragedy."
    sceneDescription := "Apartment living room, early evening."
    presentCharacters := ["Alexander Sterling"]
    history := [{ speaker := "User", message := "I open the door." }]
    relationshipSummaries := ["Alexander Sterling trust 0.20"]
    activeArcs := ["Forced Reunion"]
    memoryFlags := [{ importance := 8, content := "First meeting after 15 years" },
                    { importance := 3, content := "minor detail" }]
    maxContextMessages := 20 }

/-- A chat state that is mid-request (loading). -/
def loadingChatState : ChatState :=
  { isLoading := true
    currentSession := some { id := 7 }
    messages := [{ mtype := "narrator", speaker := "Narrator", content := "It begins." }]
    inputValue := "hello"
    currentLocation := "Location: Apartment" }

/-- A non-ok response whose JSON detail field is present but empty. -/
def emptyDetailResponse : HttpResponse :=
  { ok := false
    status := 500
    statusText := "Internal Server Error"
    errorBody := some { detail := some "" }
    data := "" }

/-- A non-ok response with a non-empty JSON detail field. -/
def detailResponse : HttpResponse :=
  { ok := false
    status := 404
    statusText := "Not Found"
    errorBody := some { detail := some "Story not found" }
    data := "" }

/-! ## Clamp lemmas -/

theorem clamp01_nonneg (x : ℚ) : 0 ≤ clamp01 x :=
  le_max_left 0 _

theorem clamp01_le_one (x : ℚ) : clamp01 x ≤ 1 :=
  max_le (by norm_num) (min_le_left 1 x)

theorem clamp01_of_le_zero {x : ℚ} (h : x ≤ 0) : clamp01 x = 0 := by
  unfold clamp01
  rw [min_eq_right (le_trans h (by norm_num))]
  exact max_eq_left h

theorem clamp01_of_one_le {x : ℚ} (h : 1 ≤ x) : clamp01 x = 1 := by
  unfold clamp01
  rw [min_eq_left h]
  exact max_eq_right (by norm_num)

theorem clamp01_of_mem {x : ℚ} (h0 : 0 ≤ x) (h1 : x ≤ 1) : clamp01 x = x := by
  unfold clamp01
  rw [min_eq_right h1]
  exact max_eq_right h0

theorem abs_clampSym_le (c x : ℚ) (hc : 0 ≤ c) : |clampSym c x| ≤ c := by
  unfold clampSym
  rw [abs_le]
  exact ⟨le_max_left _ _, max_le (by linarith) (min_le_left _ _)⟩

theorem clampNonneg_nonneg (c x : ℚ) : 0 ≤ clampNonneg c x :=
  le_max_left 0 _

theorem abs_clamp01_add_sub_le {v d : ℚ} (h0 : 0 ≤ v) (h1 : v ≤ 1) :
    |clamp01 (v + d) - v| ≤ |d| := by
  rcases le_total (v + d) 0 with hA | hA
  · rw [clamp01_of_le_zero hA, zero_sub, abs_neg, abs_of_nonneg h0]
    have hd : -|d| ≤ d := neg_abs_le d
    linarith
  · rcases le_total 1 (v + d) with hB | hB
    · rw [clamp01_of_one_le hB,
        abs_of_nonneg (by linarith : (0:ℚ) ≤ 1 - v)]
      have hd : d ≤ |d| := le_abs_self d
      linarith
    · rw [clamp01_of_mem hA hB, add_sub_cancel_left]

theorem le_clamp01_add {v d : ℚ} (h1 : v ≤ 1) (hd : 0 ≤ d) :
    v ≤ clamp01 (v + d) := by
  rcases le_total 1 (v + d) with hB | hB
  · rw [clamp01_of_one_le hB]; exact h1
  · unfold clamp01
    rw [min_eq_right hB]
    exact le_trans (by linarith) (le_max_right 0 (v + d))

theorem clamp01_twice {v d : ℚ} (h0 : 0 ≤ v) (h1 : v ≤ 1) :
    clamp01 (clamp01 (v + d) + d) = clamp01 (v + 2 * d) := by
  rcases le_total (v + d) 0 with hA | hA
  · have hd : d ≤ 0 := by linarith
    rw [clamp01_of_le_zero hA, zero_add, clamp01_of_le_zero hd,
      clamp01_of_le_zero (by linarith : v + 2 * d ≤ 0)]
  · rcases le_total 1 (v + d) with hB | hB
    · have hd : 0 ≤ d := by linarith
      rw [clamp01_of_one_le hB,
        clamp01_of_one_le (by linarith : (1:ℚ) ≤ 1 + d),
        clamp01_of_one_le (by linarith : (1:ℚ) ≤ v + 2 * d)]
    · rw [clamp01_of_mem hA hB,
        show v + d + d = v + 2 * d by ring]

/-! ## Regeneration loop lemma -/

theorem regenLoop_gens_le (gen : Nat → String) (validate : String → Verdict) :
    ∀ fuel attempt, (regenLoop gen validate fuel attempt).2.2 ≤ fuel := by
  intro fuel
  induction fuel with
  | zero => intro attempt; simp [regenLoop]
  | succ n ih =>
    intro attempt
    cases hv : validate (gen attempt) <;>
      simp only [regenLoop, hv] <;>
      first
        | omega
        | exact Nat.succ_le_succ (ih (attempt + 1))

/-! ## Claim theorems -/

/-- C1: the shipped pipeline does not enforce the would-never-do
constraint.  At a Turn whose decision action is in the characters
would-never-do set, the violation is detected but only recorded as a
warning, and the delivered Turn is the unchanged narrative still
containing the forbidden action; there is no NEEDS_REGEN state. -/
theorem c1_would_never_do_not_enforced :
    (processTurn [elenaRow] "Miriam" [elenaDecision] c1Narrative).warnings ≠ [] ∧
    (processTurn [elenaRow] "Miriam" [elenaDecision] c1Narrative).delivered = c1Narrative ∧
    strContains c1Narrative "betray a friend" = true := by
  refine ⟨?_, rfl, ?_⟩ <;> decide

/-- C2: even when validation finds a critical-severity issue, the shipped
pipeline delivers the generated text itself; no Turn is marked REJECTED
and no constraint-safe fallback narration replaces known-bad content. -/
theorem c2_no_rejected_fallback (chars : List CharacterRow) (userName : String)
    (decisions : List Decision) (narrative : String)
    (_h : (validateTurn chars userName decisions narrative).any
        (fun i => i.severity == Severity.critical) = true) :
    (processTurn chars userName decisions narrative).delivered = narrative :=
  rfl

/-- Witness for C2 at a concrete Turn with a critical validation
failure. -/
theorem c2_witness :
    (validateTurn [elenaRow] "Miriam" [elenaDecision] c1Narrative).any
        (fun i => i.severity == Severity.critical) = true ∧
    (processTurn [elenaRow] "Miriam" [elenaDecision] c1Narrative).delivered = c1Narrative :=
  ⟨by decide, c2_no_rejected_fallback [elenaRow] "Miriam" [elenaDecision] c1Narrative (by decide)⟩

/-- C3: a narrative that attributes a line to the user-controlled
character is flagged by the text-level check, yet the flag is only a
logged warning and the narrative is delivered unchanged: the exclusion is
requested in the generation prompt but not structurally enforced. -/
theorem c3_user_control_not_enforced :
    strContains c3Narrative ("Miriam" ++ ":") = true ∧
    (processTurn [] "Miriam" [] c3Narrative).warnings ≠ [] ∧
    (processTurn [] "Miriam" [] c3Narrative).delivered = c3Narrative := by
  refine ⟨?_, ?_, rfl⟩ <;> decide

/-- C4: one application of the state updater moves trust and affection by
at most the configured per-turn maximum, keeps every scalar in the unit
interval, and never decreases familiarity. -/
theorem c4_state_updater_clamped (r : RelationshipRow) (d : RelationshipDeltas)
    (hr : RowInBounds r) :
    |(updateRelationship r d).trust - r.trust| ≤ maxRelDelta ∧
    |(updateRelationship r d).affection - r.affection| ≤ maxRelDelta ∧
    RowInBounds (updateRelationship r d) ∧
    r.familiarity ≤ (updateRelationship r d).familiarity := by
  obtain ⟨ht0, ht1, ha0, ha1, hf0, hf1⟩ := hr
  have hc : (0:ℚ) ≤ maxRelDelta := by norm_num [maxRelDelta]
  unfold updateRelationship clampDeltas
  refine ⟨?_, ?_, ⟨?_, ?_, ?_, ?_, ?_, ?_⟩, ?_⟩
  · exact le_trans (abs_clamp01_add_sub_le ht0 ht1) (abs_clampSym_le _ _ hc)
  · exact le_trans (abs_clamp01_add_sub_le ha0 ha1) (abs_clampSym_le _ _ hc)
  · exact clamp01_nonneg _
  · exact clamp01_le_one _
  · exact clamp01_nonneg _
  · exact clamp01_le_one _
  · exact clamp01_nonneg _
  · exact clamp01_le_one _
  · exact le_clamp01_add hf1 (clampNonneg_nonneg _ _)

/-- Witness for C4 at a concrete in-bounds row and concrete deltas. -/
theorem c4_witness :
    |(updateRelationship c4Row c4Deltas).trust - c4Row.trust| ≤ maxRelDelta ∧
    |(updateRelationship c4Row c4Deltas).affection - c4Row.affection| ≤ maxRelDelta ∧
    RowInBounds (updateRelationship c4Row c4Deltas) ∧
    c4Row.familiarity ≤ (updateRelationship c4Row c4Deltas).familiarity :=
  c4_state_updater_clamped c4Row c4Deltas (by norm_num [RowInBounds, c4Row])

/-- C5 counterexample: on a malformed model response the engine does not
fall back to the deterministic safe default; the decision is derived by
keyword matching on the raw text, so two malformed responses yield
different decisions and the refusal flag can be set by a keyword. -/
theorem c5_counterexample :
    malformedRefusal.parsed = none ∧
    (analyzeCharacterDecision "Elena" malformedRefusal).refuses = true ∧
    analyzeCharacterDecision "Elena" malformedRefusal ≠
      safeDefaultDecision "Elena" "neutral" ∧
    analyzeCharacterDecision "Elena" malformedRefusal ≠
      analyzeCharacterDecision "Elena" malformedPlain := by
  refine ⟨rfl, ?_, ?_, ?_⟩ <;> decide

/-- C5 amended: a malformed model response is not retried; the engine
falls back to keyword parsing of the raw response text, and in particular
the refusal flag is read off a keyword occurrence in that text. -/
theorem c5_keyword_fallback (name : String) (r : RawResponse)
    (h : r.parsed = none) :
    analyzeCharacterDecision name r = parseDecisionText name r.text ∧
    (analyzeCharacterDecision name r).refuses = strContains r.text "refus" := by
  unfold analyzeCharacterDecision
  rw [h]
  exact ⟨rfl, rfl⟩

/-- Witness for C5 at a concrete malformed response. -/
theorem c5_witness :
    analyzeCharacterDecision "Elena" malformedRefusal =
      parseDecisionText "Elena" malformedRefusal.text ∧
    (analyzeCharacterDecision "Elena" malformedRefusal).refuses =
      strContains malformedRefusal.text "refus" :=
  c5_keyword_fallback "Elena" malformedRefusal rfl

/-- C6: without a dedup guard, applying the state updater twice with the
same deltas moves each relationship scalar by twice the clamped
single-turn delta, subject to the running unit-interval clamp; in
particular the updater is not idempotent. -/
theorem c6_double_application :
    (∀ (r : RelationshipRow) (d : RelationshipDeltas), RowInBounds r →
      updateRelationship (updateRelationship r d) d =
        { trust := clamp01 (r.trust + 2 * (clampDeltas d).dTrust)
          affection := clamp01 (r.affection + 2 * (clampDeltas d).dAffection)
          familiarity := clamp01 (r.familiarity + 2 * (clampDeltas d).dFamiliarity) }) ∧
    updateRelationship (updateRelationship c6Row c6Deltas) c6Deltas ≠
      updateRelationship c6Row c6Deltas := by
  constructor
  · intro r d hr
    obtain ⟨ht0, ht1, ha0, ha1, hf0, hf1⟩ := hr
    simp only [updateRelationship, RelationshipRow.mk.injEq]
    exact ⟨clamp01_twice ht0 ht1, clamp01_twice ha0 ha1, clamp01_twice hf0 hf1⟩
  · intro hEq
    have htr : (updateRelationship (updateRelationship c6Row c6Deltas) c6Deltas).trust =
        (updateRelationship c6Row c6Deltas).trust := by rw [hEq]
    norm_num [updateRelationship, clampDeltas, clamp01, clampSym, clampNonneg,
      maxRelDelta, maxFamDelta, c6Row, c6Deltas, min_def, max_def] at htr

/-- Witness for C6: the double-application law at a concrete in-bounds
row. -/
theorem c6_witness :
    updateRelationship (updateRelationship c6Row c6Deltas) c6Deltas =
      { trust := clamp01 (c6Row.trust + 2 * (clampDeltas c6Deltas).dTrust)
        affection := clamp01 (c6Row.affection + 2 * (clampDeltas c6Deltas).dAffection)
        familiarity := clamp01 (c6Row.familiarity + 2 * (clampDeltas c6Deltas).dFamiliarity) } :=
  c6_double_application.1 c6Row c6Deltas (by norm_num [RowInBounds, c6Row])

/-- C7: for every generator and every validation oracle, the bounded
validation loop performs at most the retry ceiling of regenerations on
top of the initial generation, and terminates in a valid,
accepted-with-warning, or rejected Turn. -/
theorem c7_regen_loop_bounded (gen : Nat → String) (validate : String → Verdict) :
    (processTurnValidated gen validate).2.2 ≤ retryCeiling + 1 ∧
    ((processTurnValidated gen validate).2.1 = TurnStatus.valid ∨
     (processTurnValidated gen validate).2.1 = TurnStatus.acceptedWithWarning ∨
     (processTurnValidated gen validate).2.1 = TurnStatus.rejected) := by
  refine ⟨regenLoop_gens_le gen validate (retryCeiling + 1) 0, ?_⟩
  cases (processTurnValidated gen validate).2.1 <;> simp

/-- C8: the context assembler is a pure function of its inputs: two runs
over identical inputs produce identical context bundles, so the ranking
of memories, history, and relationships involves no hidden randomness. -/
theorem c8_context_assembler_deterministic (a b : ContextInputs) (h : a = b) :
    buildFullContext a = buildFullContext b :=
  congrArg buildFullContext h

/-- Witness for C8 at concrete context inputs. -/
theorem c8_witness : buildFullContext c8Inputs = buildFullContext c8Inputs :=
  c8_context_assembler_deterministic c8Inputs c8Inputs rfl

/-- C9: sendMessage returns without issuing any api request and without
touching the chat display (the whole state is unchanged) whenever a
request is already loading, no session is active, or the trimmed input is
empty. -/
theorem c9_send_message_guards (st : ChatState) (api : ApiOutcome)
    (h : st.isLoading = true ∨ st.currentSession = none ∨ st.inputValue.trim = "") :
    sendMessage st api = (st, []) := by
  cases hL : st.isLoading with
  | true => simp [sendMessage, hL]
  | false =>
    rcases h with h | h | h
    · exact absurd h (by simp [hL])
    · simp [sendMessage, hL, h]
    · rcases hS : st.currentSession with _ | sess
      · simp [sendMessage, hL, hS]
      · simp [sendMessage, hL, hS, h]

/-- Witness for C9 at a concrete loading state. -/
theorem c9_witness :
    sendMessage loadingChatState (ApiOutcome.failure "timeout") = (loadingChatState, []) :=
  c9_send_message_guards loadingChatState (ApiOutcome.failure "timeout") (Or.inl rfl)

/-- C10 counterexample: a non-ok response whose JSON detail field is
present but empty throws the HTTP fallback message, not the detail field,
refuting the claim that the thrown message is the detail field whenever
it is present. -/
theorem c10_counterexample :
    emptyDetailResponse.ok = false ∧
    emptyDetailResponse.errorBody = some { detail := some "" } ∧
    apiRequest emptyDetailResponse =
      Except.error "HTTP 500: Internal Server Error" ∧
    apiRequestErrorMessage emptyDetailResponse ≠ "" := by
  refine ⟨rfl, rfl, rfl, ?_⟩
  decide

/-- C10 amended: every non-ok response makes apiRequest throw, never
return a success value; the thrown message is the JSON detail field when
it is present and non-empty, and otherwise (missing detail, empty detail,
or unparsable body) the HTTP fallback message. -/
theorem c10_api_request_error (r : HttpResponse) (h : r.ok = false) :
    apiRequest r = Except.error (apiRequestErrorMessage r) ∧
    (∀ v, apiRequest r ≠ Except.ok v) ∧
    (∀ d, r.errorBody = some { detail := some d } → d ≠ "" →
      apiRequestErrorMessage r = d) ∧
    (r.errorBody = none → apiRequestErrorMessage r = httpFallbackMessage r) ∧
    (∀ b, r.errorBody = some b → b.detail = none →
      apiRequestErrorMessage r = httpFallbackMessage r) := by
  refine ⟨?_, ?_, ?_, ?_, ?_⟩
  · simp [apiRequest, h]
  · intro v
    simp [apiRequest, h]
  · intro d hd hne
    simp [apiRequestErrorMessage, hd, hne]
  · intro hb
    simp [apiRequestErrorMessage, hb]
  · intro b hb hdet
    simp [apiRequestErrorMessage, hb, hdet]

/-- Witness for C10 at a concrete non-ok response with a non-empty detail
field. -/
theorem c10_witness : apiRequest detailResponse = Except.error "Story not found" := by
  have h := c10_api_request_error detailResponse rfl
  have h3 := h.2.2.1 "Story not found" rfl (by decide)
  rw [h.1, h3]

end Storyteller
